import Mathlib

/-!
Verification of the remote offload pipeline of `server/local/app.py`
(repository `hyounwoong/ar_recorder`).

The Python functions `upload_to_gpu_server`, `download_from_gpu_server`,
`run_on_gpu_server` (streaming branch) and `process_session_on_gpu_server`
are embedded as pure Lean functions.  External effects (the `scp`/`ssh`
subprocesses, the filesystem snapshot, the downloaded file's bytes and the
current clock) are inputs: one attempt outcome per call, exactly as the code
makes one call per operation.  Python strings are Lean `String`s; machine
details that no claim depends on (`os.path.abspath` normalisation, the
appended `traceback.format_exc()` text, Windows back-slash rewriting) are
noted where they are elided.
-/

/-! ## Character and string helpers (models of the Python primitives used) -/

/-- Newline character, written by code point to keep literals simple. -/
def nlChar : Char := Char.ofNat 10

/-- Opening curly brace (code point 123). -/
def obraceChar : Char := Char.ofNat 123

/-- Closing curly brace (code point 125). -/
def cbraceChar : Char := Char.ofNat 125

/-- The whitespace characters `str.rstrip()` removes (ASCII fragment:
space, tab, newline, vertical tab, form feed, carriage return). -/
def pyWsChar (c : Char) : Bool :=
  c = ' ' || c = Char.ofNat 9 || c = Char.ofNat 10 || c = Char.ofNat 11 ||
  c = Char.ofNat 12 || c = Char.ofNat 13

/-- Python `line.rstrip()` on the character list: drop trailing whitespace. -/
def rstripL (l : List Char) : List Char := (l.reverse.dropWhile pyWsChar).reverse

/-- Python `line.rstrip()`. -/
def pyRstrip (s : String) : String := String.mk (rstripL s.data)

/-- Character-list version of `str.startswith`. -/
def chPre : List Char → List Char → Bool
  | [], _ => true
  | _ :: _, [] => false
  | a :: as, b :: bs => if a = b then chPre as bs else false

/-- Contiguous-substring test on character lists (`needle` occurs in `hay`). -/
def subSeg (needle : List Char) : List Char → Bool
  | [] => needle.isEmpty
  | c :: rest => chPre needle (c :: rest) || subSeg needle rest

/-- Python's `needle in hay` on strings. -/
def strIn (needle hay : String) : Bool := subSeg needle.data hay.data

/-- Python's `s.startswith(p)`. -/
def pyStartsWith (s p : String) : Bool := chPre p.data s.data

/-- Python's `s.endswith(p)`. -/
def pyEndsWith (s p : String) : Bool := chPre p.data.reverse s.data.reverse

/-- Python's `s[:-6]` for the `.jsonl` strip. -/
def stripLast6 (s : String) : String := String.mk (s.data.take (s.data.length - 6))

/-- Model of `'\n'.join` at character-list level. -/
def joinNlL : List (List Char) → List Char
  | [] => []
  | [c] => c
  | c :: cs => c ++ nlChar :: joinNlL cs

/-- Model of `'\n'.join(lines)`. -/
def joinNl (ls : List String) : String := String.mk (joinNlL (ls.map String.data))

/-- Split a character list at newlines (observation function used to state
what the joined transcript looks like; inverse of `joinNlL` on well-formed
chunks). -/
def splitOnNl : List Char → List (List Char)
  | [] => [[]]
  | c :: rest =>
    if c = nlChar then [] :: splitOnNl rest
    else
      match splitOnNl rest with
      | [] => [[c]]
      | p :: ps => (c :: p) :: ps

/-- Python's `l[-20:]`: the last `n` elements of a list. -/
def lastN (n : Nat) (l : List α) : List α := l.drop (l.length - n)

/-! ## JSON values and a model of `json.loads`

`json` is the Python standard library, not repository code; it is modelled
here on the fragment the pipeline exchanges: objects, arrays, strings
without escape sequences, integer numerals, `true`/`false`/`null`.
Numbers are held as integers (the float values the remote script emits play
no role in any claim).  Duplicate object keys keep the last binding,
as `json.loads` does. -/

inductive Json where
  | null
  | bool (b : Bool)
  | num (n : Int)
  | str (s : String)
  | arr (xs : List Json)
  | obj (fields : List (String × Json))

/-- Python `dict` lookup after `json.loads`: the last binding of a key wins. -/
def lookupLast (fs : List (String × Json)) (k : String) : Option Json :=
  fs.foldl (fun acc p => if p.1 = k then some p.2 else acc) none

/-- The JSON whitespace characters (what `json.loads` skips between tokens). -/
def jsonWsChar (c : Char) : Bool :=
  c = ' ' || c = Char.ofNat 9 || c = Char.ofNat 10 || c = Char.ofNat 13

def skipWs (l : List Char) : List Char := l.dropWhile jsonWsChar

/-- Digit run to a natural number accumulator; returns the rest. -/
def takeDigits : List Char → Nat → Nat × List Char
  | [], acc => (acc, [])
  | c :: rest, acc =>
    if c.isDigit then takeDigits rest (acc * 10 + (c.toNat - 48))
    else (acc, c :: rest)

/-- String body up to the closing quote; escape sequences are outside the
modelled fragment and make the parse fail. -/
def takeStrBody : List Char → Option (List Char × List Char)
  | [] => none
  | c :: rest =>
    if c = '"' then some ([], rest)
    else if c = '\\' then none
    else match takeStrBody rest with
      | some (body, rem) => some (c :: body, rem)
      | none => none

mutual

def parseJson : Nat → List Char → Option (Json × List Char)
  | 0, _ => none
  | fuel + 1, cs =>
    match skipWs cs with
    | [] => none
    | c :: rest =>
      if c = 'n' then
        if chPre ['u','l','l'] rest then some (Json.null, rest.drop 3) else none
      else if c = 't' then
        if chPre ['r','u','e'] rest then some (Json.bool true, rest.drop 3) else none
      else if c = 'f' then
        if chPre ['a','l','s','e'] rest then some (Json.bool false, rest.drop 4) else none
      else if c = '"' then
        match takeStrBody rest with
        | some (body, rem) => some (Json.str (String.mk body), rem)
        | none => none
      else if c = obraceChar then parseObjTail fuel rest
      else if c = '[' then parseArrTail fuel rest
      else if c = '-' then
        match rest with
        | d :: _ =>
          if d.isDigit then
            let (v, rem) := takeDigits rest 0
            some (Json.num (-(Int.ofNat v)), rem)
          else none
        | [] => none
      else if c.isDigit then
        let (v, rem) := takeDigits (c :: rest) 0
        some (Json.num (Int.ofNat v), rem)
      else none

/-- After `[`: elements separated by commas up to `]`. -/
def parseArrTail : Nat → List Char → Option (Json × List Char)
  | 0, _ => none
  | fuel + 1, cs =>
    match skipWs cs with
    | c :: rest =>
      if c = ']' then some (Json.arr [], rest)
      else
        match parseJson fuel cs with
        | some (v, rem) =>
          (parseArrRest fuel rem).map fun (vs, rem') => (Json.arr (v :: vs), rem')
        | none => none
    | [] => none

def parseArrRest : Nat → List Char → Option (List Json × List Char)
  | 0, _ => none
  | fuel + 1, cs =>
    match skipWs cs with
    | c :: rest =>
      if c = ']' then some ([], rest)
      else if c = ',' then
        match parseJson fuel rest with
        | some (v, rem) =>
          (parseArrRest fuel rem).map fun (vs, rem') => (v :: vs, rem')
        | none => none
      else none
    | [] => none

/-- After the opening brace: `"key": value` pairs separated by commas. -/
def parseObjTail : Nat → List Char → Option (Json × List Char)
  | 0, _ => none
  | fuel + 1, cs =>
    match skipWs cs with
    | c :: rest =>
      if c = cbraceChar then some (Json.obj [], rest)
      else
        match parseMember fuel cs with
        | some (kv, rem) =>
          (parseObjRest fuel rem).map fun (kvs, rem') => (Json.obj (kv :: kvs), rem')
        | none => none
    | [] => none

def parseObjRest : Nat → List Char → Option (List (String × Json) × List Char)
  | 0, _ => none
  | fuel + 1, cs =>
    match skipWs cs with
    | c :: rest =>
      if c = cbraceChar then some ([], rest)
      else if c = ',' then
        match parseMember fuel rest with
        | some (kv, rem) =>
          (parseObjRest fuel rem).map fun (kvs, rem') => (kv :: kvs, rem')
        | none => none
      else none
    | [] => none

def parseMember : Nat → List Char → Option ((String × Json) × List Char)
  | 0, _ => none
  | fuel + 1, cs =>
    match skipWs cs with
    | c :: rest =>
      if c = '"' then
        match takeStrBody rest with
        | some (body, rem) =>
          match skipWs rem with
          | d :: rem' =>
            if d = ':' then
              match parseJson fuel rem' with
              | some (v, rem'') => some ((String.mk body, v), rem'')
              | none => none
            else none
          | [] => none
        | none => none
      else none
    | [] => none

end

/-- Model of `json.loads`: parse one value, demand only whitespace after it. -/
def jsonLoads (s : String) : Option Json :=
  match parseJson (2 * s.data.length + 4) s.data with
  | some (v, rem) => if skipWs rem = [] then some v else none
  | none => none

/-! ## Session resolution (`app.py` lines 248-270)

The filesystem snapshot is the listing of `actual_session_folder`, in the
order the OS returns entries (`glob.glob` preserves that order and is not
sorted at this call site).  `glob` matches directories and regular files
alike; patterns without a leading dot never match hidden entries. -/

/-- An entry matched by `glob.glob(os.path.join(dir, "session_*"))`. -/
def sessionEntryMatch (e : String) : Bool := pyStartsWith e "session_"

/-- An entry matched by `glob.glob(os.path.join(dir, "*.jsonl"))`. -/
def jsonlEntryMatch (e : String) : Bool :=
  !pyStartsWith e "." && pyEndsWith e ".jsonl"

def sessionGlob (entries : List String) : List String :=
  entries.filter sessionEntryMatch

def jsonlGlob (entries : List String) : List String :=
  entries.filter jsonlEntryMatch

/-- Line 260: `jsonl_basename.startswith("session_") and jsonl_basename.endswith(".jsonl")`. -/
def conformingJsonl (e : String) : Bool :=
  pyStartsWith e "session_" && pyEndsWith e ".jsonl"

/-- Lines 249-267: pick a `session_*` entry, else look at the first `.jsonl`
file, else synthesize `session_<int(time.time()*1000)>`. -/
def locate_session_name (entries : List String) (nowMs : Nat) : String :=
  match sessionGlob entries with
  | f :: _ => f
  | [] =>
    match jsonlGlob entries with
    | j :: _ =>
      if conformingJsonl j then stripLast6 j
      else "session_" ++ Nat.repr nowMs
    | [] => "session_" ++ Nat.repr nowMs

/-- Lines 269-270: `if not session_folder_name:` fall back to the base name
of the extracted root. -/
def resolve_session_name (entries : List String) (nowMs : Nat) (rootBase : String) :
    String :=
  let n := locate_session_name entries nowMs
  if n = "" then rootBase else n

/-! ## Result parsing (`app.py` lines 361-388) -/

/-- The default `[0.0, 0.0, 0.0]` cup coordinates. -/
def zero3 : Json := Json.arr [Json.num 0, Json.num 0, Json.num 0]

/-- Model of `result_data.get('cup_coordinates', [0.0, 0.0, 0.0])`. -/
def cupGet (fs : List (String × Json)) : Json :=
  match lookupLast fs "cup_coordinates" with
  | some v => v
  | none => zero3

/-- Model of `result_data.get('rotation_axis')`: a stored JSON `null` and an absent
key both become Python `None`. -/
def rotGet (fs : List (String × Json)) : Option Json :=
  match lookupLast fs "rotation_axis" with
  | some Json.null => none
  | some v => some v
  | none => none

/-- Lines 365-368: decode the downloaded file and read the two fields.
`none` covers both failure modes the surrounding `except` catches:
`json.load` raising, and `.get` raising because the document is not an
object. -/
def read_result_file (content : String) : Option (Json × Option Json) :=
  match jsonLoads content with
  | some (Json.obj fs) => some (cupGet fs, rotGet fs)
  | _ => none

/-- The match of `re.search(r'\x7b.*\x7d', output, re.DOTALL)`: the pattern's
leftmost match runs from the first opening brace to the last closing brace
(greedy `.*` with DOTALL).  `none` when no such span exists. -/
def extractBraceSpan (s : String) : Option String :=
  match s.data.dropWhile (fun c => c ≠ obraceChar) with
  | [] => none
  | c :: tail =>
    match tail.reverse.dropWhile (fun c => c ≠ cbraceChar) with
    | [] => none
    | revSpan => some (String.mk (c :: revSpan.reverse))

/-- Lines 372-385: the fallback; any failure inside it (no match, decode
error, non-object document) yields the zero coordinates with no axis. -/
def fallback_extract (output : String) : Json × Option Json :=
  match extractBraceSpan output with
  | some span =>
    match jsonLoads span with
    | some (Json.obj fs) => (cupGet fs, rotGet fs)
    | _ => (zero3, none)
  | none => (zero3, none)

/-- The try/except of lines 361-385: primary path over the downloaded file
(`downloaded = none` when the download itself raised), fallback over the
captured execution output otherwise. -/
def parse_result (downloaded : Option String) (output : String) : Json × Option Json :=
  match downloaded with
  | some content =>
    match read_result_file content with
    | some r => r
    | none => fallback_extract output
  | none => fallback_extract output

/-- True when the fallback itself can only produce the defaults: no brace
span in the output, or the span does not decode to a JSON object. -/
def fallbackDefaults (output : String) : Bool :=
  match extractBraceSpan output with
  | none => true
  | some span =>
    match jsonLoads span with
    | some (Json.obj _) => false
    | _ => true

/-! ## Configuration and external attempt outcomes -/

/-- The `config.py` values the pipeline reads.  `os.getenv` always yields a
string (possibly empty); Python's `not host` is the empty-string test. -/
structure Config where
  gpuServerHost : String
  gpuServerPort : Nat
  gpuServerUser : String
  gpuServerSshKey : String
  gpuServerWorkDir : String
  gpuServerVenvPath : String

/-- Outcome of one `subprocess.run(scp_cmd, ..., timeout=300)` call:
either `TimeoutExpired`, or completion with an exit status and the two
captured streams. -/
inductive ScpAttempt where
  | timedOut
  | completed (returncode : Int) (stdout : String) (stderr : String)

/-- Outcome of one streaming `ssh` execution: the lines `readline`
produced (each without its terminating newline), and either the final exit
status or `TimeoutExpired` from `process.wait(timeout=600)`. -/
inductive ExecAttempt where
  | timedOut (lines : List String)
  | finished (lines : List String) (returncode : Int)

/-- Every exception the embedded functions raise, one constructor per
`raise` site, carrying the data the site formats into its message. -/
inductive PipeErr where
  | configMissing
  | keyNotFound (path : String)
  | scpUploadTimeout (host : String) (port : Nat)
  | scpDownloadTimeout (host : String) (port : Nat)
  | scpConnFailUpload (host : String) (port : Nat) (errMsg : String)
  | scpConnFailDownload (host : String) (port : Nat) (errMsg : String)
  | scpUploadFail (errMsg : String)
  | scpDownloadFail (errMsg : String)
  | sshExecFail (returncode : Int) (tailMsg : String)
  | sshExecTimeout (command : String)

/-- Python `str(e)` for each raise site, exactly as the f-strings build it. -/
def errStr : PipeErr → String
  | .configMissing => "GPU 서버 설정이 없습니다. config.py를 확인하세요."
  | .keyNotFound p => "SSH 키 파일을 찾을 수 없습니다: " ++ p
  | .scpUploadTimeout h p =>
      "SCP 업로드 타임아웃: GPU 서버(" ++ h ++ ":" ++ Nat.repr p ++
      ")에 연결할 수 없습니다. VPN이 켜져 있는지 확인하세요."
  | .scpDownloadTimeout h p =>
      "SCP 다운로드 타임아웃: GPU 서버(" ++ h ++ ":" ++ Nat.repr p ++
      ")에 연결할 수 없습니다."
  | .scpConnFailUpload h p m =>
      "GPU 서버 연결 실패: " ++ h ++ ":" ++ Nat.repr p ++
      "에 연결할 수 없습니다.\n확인 사항:\n1. VPN이 켜져 있는지 확인\n2. GPU 서버가 실행 중인지 확인\n3. 네트워크 연결 상태 확인\n원본 에러: " ++ m
  | .scpConnFailDownload h p m =>
      "GPU 서버 연결 실패: " ++ h ++ ":" ++ Nat.repr p ++
      "에 연결할 수 없습니다.\n확인 사항:\n1. VPN이 켜져 있는지 확인\n2. GPU 서버가 실행 중인지 확인\n원본 에러: " ++ m
  | .scpUploadFail m => "SCP 업로드 실패: " ++ m
  | .scpDownloadFail m => "SCP 다운로드 실패: " ++ m
  | .sshExecFail rc t =>
      "SSH 명령 실행 실패 (코드: " ++ toString rc ++ ")\n최근 출력:\n" ++ t
  | .sshExecTimeout cmd => "SSH 명령 실행 타임아웃 (600초 초과): " ++ cmd

/-- Line 73: `error_msg = result.stderr if result.stderr else result.stdout`. -/
def scpErrMsg (stdout stderr : String) : String :=
  if stderr ≠ "" then stderr else stdout

/-- Line 74: `"Connection timed out" in error_msg or "Connection refused" in error_msg`. -/
def connRefusedOrTimedOut (m : String) : Bool :=
  strIn "Connection timed out" m || strIn "Connection refused" m

/-! ## Transfer client (`app.py` lines 36-131)

`keyFileExists` stands for `os.path.exists(os.path.abspath(key))`; the
`abspath`/slash normalisation is not modelled (the key string is carried
verbatim into the `FileNotFoundError` message). -/

/-- Model of `upload_to_gpu_server` (lines 36-83). -/
def upload_to_gpu_server (cfg : Config) (keyFileExists : Bool)
    (attempt : ScpAttempt) : Except PipeErr Unit :=
  if cfg.gpuServerHost = "" ∨ cfg.gpuServerSshKey = "" then .error .configMissing
  else if ¬ keyFileExists then .error (.keyNotFound cfg.gpuServerSshKey)
  else
    match attempt with
    | .timedOut => .error (.scpUploadTimeout cfg.gpuServerHost cfg.gpuServerPort)
    | .completed rc out err =>
      if rc ≠ 0 then
        let m := scpErrMsg out err
        if connRefusedOrTimedOut m then
          .error (.scpConnFailUpload cfg.gpuServerHost cfg.gpuServerPort m)
        else .error (.scpUploadFail m)
      else .ok ()

/-- Model of `download_from_gpu_server` (lines 85-131). -/
def download_from_gpu_server (cfg : Config) (keyFileExists : Bool)
    (attempt : ScpAttempt) : Except PipeErr Unit :=
  if cfg.gpuServerHost = "" ∨ cfg.gpuServerSshKey = "" then .error .configMissing
  else if ¬ keyFileExists then .error (.keyNotFound cfg.gpuServerSshKey)
  else
    match attempt with
    | .timedOut => .error (.scpDownloadTimeout cfg.gpuServerHost cfg.gpuServerPort)
    | .completed rc out err =>
      if rc ≠ 0 then
        let m := scpErrMsg out err
        if connRefusedOrTimedOut m then
          .error (.scpConnFailDownload cfg.gpuServerHost cfg.gpuServerPort m)
        else .error (.scpDownloadFail m)
      else .ok ()

/-! ## Remote executor, streaming branch (`app.py` lines 133-220)

The pipeline only calls `run_on_gpu_server` with `realtime_output=True`;
that branch is the one embedded.  The read loop right-strips each line and
drops the empty ones before accumulating. -/

/-- The accumulated `output_lines` of the read loop. -/
def processedLines (lines : List String) : List String :=
  (lines.map pyRstrip).filter (fun l => l != "")

/-- Line 210: `'\n'.join(output_lines[-20:]) if output_lines else "출력 없음"`. -/
def execTailMsg (outLines : List String) : String :=
  if outLines.isEmpty then "출력 없음" else joinNl (lastN 20 outLines)

/-- Model of `run_on_gpu_server(command, realtime_output=True)`. -/
def run_on_gpu_server (cfg : Config) (keyFileExists : Bool) (command : String)
    (attempt : ExecAttempt) : Except PipeErr String :=
  if cfg.gpuServerHost = "" ∨ cfg.gpuServerSshKey = "" then .error .configMissing
  else if ¬ keyFileExists then .error (.keyNotFound cfg.gpuServerSshKey)
  else
    match attempt with
    | .timedOut _ => .error (.sshExecTimeout command)
    | .finished lines rc =>
      let outLines := processedLines lines
      if rc ≠ 0 then .error (.sshExecFail rc (execTailMsg outLines))
      else .ok (joinNl outLines)

/-! ## The pipeline (`app.py` lines 235-412) -/

/-- The response dictionary: on success it has `success=True`,
`cup_coordinates`, `message`, plus `rotation_axis` exactly when that key
was added; on failure `success=False`, `error`, `message`. -/
inductive PipelineResult where
  | ok (cup_coordinates : Json) (rotation_axis : Option Json) (message : String)
  | fail (error : String) (message : String)

def PipelineResult.success : PipelineResult → Bool
  | .ok _ _ _ => true
  | .fail _ _ => false

/-- Python truthiness of the `rotation_axis` value at line 400
(`if rotation_axis:`): `None`, `0`, empty string/array/object and `False`
are falsy. -/
def pyTruthy : Json → Bool
  | .null => false
  | .bool b => b
  | .num n => n ≠ 0
  | .str s => s ≠ ""
  | .arr xs => !xs.isEmpty
  | .obj fs => !fs.isEmpty

def pyTruthyO : Option Json → Bool
  | none => false
  | some v => pyTruthy v

/-- Lines 393-401: the success envelope; `rotation_axis` is added only when
truthy. -/
def mkSuccess (cup : Json) (rot : Option Json) : PipelineResult :=
  .ok cup (if pyTruthyO rot then rot else none) "처리 완료 (GPU 서버에서 실행됨)"

/-- Lines 405-412: the top-level `except` converts any exception into a
failure envelope.  The `traceback.format_exc()` text appended to the
message is not modelled. -/
def mkFailure (e : PipeErr) : PipelineResult :=
  .fail (errStr e) ("GPU 서버 처리 중 오류 발생: " ++ errStr e)

/-- Which local temporary files exist when the call returns: the `tar.gz`
bundle of line 278 and the downloaded-result file of line 358. -/
structure LocalFiles where
  tarFileExists : Bool
  resultFileExists : Bool

/-- One invocation's view of the outside world: the session folder listing,
the clock, and the outcome of each external call in pipeline order. -/
structure PipelineWorld where
  dirEntries : List String
  nowMs : Nat
  rootBase : String
  uploadTarAttempt : ScpAttempt
  extractAttempt : ExecAttempt
  scriptFileExists : Bool
  scriptUploadAttempt : ScpAttempt
  inferenceFileExists : Bool
  inferenceUploadAttempt : ScpAttempt
  modelRunAttempt : ExecAttempt
  downloadAttempt : ScpAttempt
  resultFileContent : String

/-- The remote extraction command of lines 299-304. -/
def extract_command (cfg : Config) (name tarBase : String) : String :=
  "cd " ++ cfg.gpuServerWorkDir ++ " && tar -xzf " ++ tarBase ++
  " && if [ -d extracted ] && [ ! -d " ++ name ++
  " ]; then mv extracted " ++ name ++ "; fi && rm " ++ tarBase

/-- The remote inference command of lines 340-347. -/
def script_command (cfg : Config) : String :=
  "bash -c 'set -e && cd " ++ cfg.gpuServerWorkDir ++ " && source " ++
  cfg.gpuServerVenvPath ++
  " && python_path=$(which python) && echo \"[GPU] 가상환경 Python 경로: $python_path\" && python process_and_save_result.py " ++
  cfg.gpuServerWorkDir ++ "'"

/-- Stage 1 (lines 281-307, inside the `finally` that removes the bundle):
upload the archive, then run the remote extraction. -/
def stage1_result (cfg : Config) (ke : Bool) (w : PipelineWorld) :
    Except PipeErr Unit :=
  match upload_to_gpu_server cfg ke w.uploadTarAttempt with
  | .error e => .error e
  | .ok _ =>
    let name := resolve_session_name w.dirEntries w.nowMs w.rootBase
    match run_on_gpu_server cfg ke (extract_command cfg name (name ++ ".tar.gz"))
        w.extractAttempt with
    | .error e => .error e
    | .ok _ => .ok ()

/-- Stage 2 (lines 314-332): upload each helper script only if it exists
locally; a missing file is skipped silently. -/
def stage2_result (cfg : Config) (ke : Bool) (w : PipelineWorld) :
    Except PipeErr Unit :=
  match (if w.scriptFileExists
         then upload_to_gpu_server cfg ke w.scriptUploadAttempt
         else .ok ()) with
  | .error e => .error e
  | .ok _ =>
    if w.inferenceFileExists
    then upload_to_gpu_server cfg ke w.inferenceUploadAttempt
    else .ok ()

/-- Stage 3 (lines 334-351): the streaming inference run; its output feeds
the parser's fallback. -/
def stage3_result (cfg : Config) (ke : Bool) (w : PipelineWorld) :
    Except PipeErr String :=
  run_on_gpu_server cfg ke (script_command cfg) w.modelRunAttempt

/-- Lines 362-368 seen from the parser: `some content` when the download
succeeded (the file then holds `resultFileContent`), `none` when it raised. -/
def downloaded_content (cfg : Config) (ke : Bool) (w : PipelineWorld) :
    Option String :=
  match download_from_gpu_server cfg ke w.downloadAttempt with
  | .ok _ => some w.resultFileContent
  | .error _ => none

/-- Model of `process_session_on_gpu_server` (lines 235-412).  Returns the response
envelope together with which of the two local temporary files still exist.
The `tar.gz` bundle is created before stage 1 and removed by the `finally`
of line 308 whether or not stage 1 raised; the result file is created
before the download and removed by the `finally` of line 386; every other
exception reaches the top-level `except` after those `finally` blocks ran. -/
def process_session_on_gpu_server (cfg : Config) (ke : Bool) (w : PipelineWorld) :
    PipelineResult × LocalFiles :=
  let tarExists := true
  let tarAfter := if tarExists then false else tarExists
  match stage1_result cfg ke w with
  | .error e => (mkFailure e, ⟨tarAfter, false⟩)
  | .ok _ =>
    match stage2_result cfg ke w with
    | .error e => (mkFailure e, ⟨tarAfter, false⟩)
    | .ok _ =>
      match stage3_result cfg ke w with
      | .error e => (mkFailure e, ⟨tarAfter, false⟩)
      | .ok output =>
        let resultExists := true
        let parsed := parse_result (downloaded_content cfg ke w) output
        let resultAfter := if resultExists then false else resultExists
        (mkSuccess parsed.1 parsed.2, ⟨tarAfter, resultAfter⟩)

/-! ## Observation functions used by the statements -/

/-- The spec's `[f64;3]` shape: a three-element JSON array. -/
def isArr3 : Json → Bool
  | .arr xs => xs.length == 3
  | _ => false

/-- The spec's ConnectivityError class: the raise sites reporting an
unreachable host (both timeout sites and both connection-refused/timed-out
sites). -/
def isConnectivityErr : PipeErr → Bool
  | .scpUploadTimeout _ _ => true
  | .scpDownloadTimeout _ _ => true
  | .scpConnFailUpload _ _ _ => true
  | .scpConnFailDownload _ _ _ => true
  | _ => false

/-- The spec's TransferError class: any other non-zero `scp` exit. -/
def isTransferErr : PipeErr → Bool
  | .scpUploadFail _ => true
  | .scpDownloadFail _ => true
  | _ => false

/-- Remediation guidance fragments of the spec's ConnectivityError. -/
def gVpn : String := "VPN이 켜져 있는지 확인"

def gHost : String := "GPU 서버가 실행 중인지 확인"

def gNet : String := "네트워크 연결 상태 확인"

/-- The fields of the object a parse source decoded, if it decoded one. -/
def decodedObjFields : Option String → Option (List (String × Json))
  | none => none
  | some c =>
    match jsonLoads c with
    | some (Json.obj fs) => some fs
    | _ => none

/-- The fields the fallback's brace span decodes to, if any. -/
def spanFields (output : String) : Option (List (String × Json)) :=
  match extractBraceSpan output with
  | some span =>
    (match jsonLoads span with
     | some (Json.obj fs) => some fs
     | _ => none)
  | none => none

/-- Remote-contract shape of the two fields: `cup_coordinates` absent or a
three-element array; `rotation_axis` absent, `null`, or a three-element
array. -/
def shapeOkB (fs : List (String × Json)) : Bool :=
  (match lookupLast fs "cup_coordinates" with
   | some v => isArr3 v
   | none => true) &&
  (match lookupLast fs "rotation_axis" with
   | some Json.null => true
   | some v => isArr3 v
   | none => true)

def shapeOkO : Option (List (String × Json)) → Bool
  | none => true
  | some fs => shapeOkB fs

/-- The `rotation_axis` entry of the response dictionary (`none` both for a
failure envelope and for a success envelope without the key). -/
def PipelineResult.rotationField : PipelineResult → Option Json
  | .ok _ r _ => r
  | .fail _ _ => none

/-! ## Concrete instances used by witnesses and counterexamples -/

/-- A fully-configured `Config` (the shipped `config.py` defaults). -/
def cfgA : Config :=
  ⟨"10.28.228.101", 31788, "root", "image_segmentation.pem",
   "/data/ephemeral/home/measure_volume_by_multiview/project/ar_folder",
   "/data/ephemeral/home/py310/bin/activate"⟩

/-- A config whose remote user is unset while host and key are present. -/
def cfgNoUser : Config := ⟨"10.28.228.101", 31788, "", "key.pem", "/wd", "/venv"⟩

/-- A config with no host configured. -/
def cfgNoHost : Config := ⟨"", 31788, "root", "key.pem", "/wd", "/venv"⟩

/-- A successful `scp` attempt. -/
def scpOk : ScpAttempt := .completed 0 "" ""

/-- A world where every remote step succeeds but the execution output holds
no JSON and the result download times out. -/
def wFallback : PipelineWorld :=
  ⟨["session_1"], 5, "root", scpOk, .finished [] 0, false, .timedOut,
   false, .timedOut, .finished ["no json here"] 0, .timedOut, ""⟩

/-- As `wFallback`, but the download succeeds and the file's
`cup_coordinates` has two components. -/
def wBadArity : PipelineWorld :=
  { wFallback with
    downloadAttempt := scpOk,
    resultFileContent := "\x7b\"cup_coordinates\": [1, 2]\x7d" }

/-- As `wFallback`, but the download succeeds and the file carries a
present-but-empty `rotation_axis`. -/
def wEmptyRot : PipelineWorld :=
  { wFallback with
    downloadAttempt := scpOk,
    resultFileContent :=
      "\x7b\"cup_coordinates\": [1, 2, 3], \"rotation_axis\": []\x7d" }

/-- As `wFallback`, but the inference run exits with status 3 after two
output lines. -/
def wExecFail : PipelineWorld :=
  { wFallback with modelRunAttempt := .finished ["step 1", "boom  "] 3 }

/-- As `wFallback`, but the download succeeds and the file carries a
three-component rotation axis. -/
def wRot3 : PipelineWorld :=
  { wFallback with
    downloadAttempt := scpOk,
    resultFileContent :=
      "\x7b\"cup_coordinates\": [1, 2, 3], \"rotation_axis\": [7, 8, 9]\x7d" }

/-! ## Helper lemmas -/

theorem chPre_self_append (p t : List Char) : chPre p (p ++ t) = true := by
  induction p with
  | nil => rfl
  | cons a as ih => simp [chPre, ih]

theorem chPre_mono_append {n h : List Char} (t : List Char)
    (hp : chPre n h = true) : chPre n (h ++ t) = true := by
  induction n generalizing h with
  | nil => rfl
  | cons a as ih =>
    cases h with
    | nil => exact absurd hp (by simp [chPre])
    | cons b bs =>
      simp only [chPre] at hp ⊢
      by_cases hab : a = b
      · simpa [hab] using ih (by simpa [hab] using hp)
      · simp [hab] at hp

theorem subSeg_self (n : List Char) : subSeg n n = true := by
  cases n with
  | nil => rfl
  | cons c rest =>
    have : chPre (c :: rest) (c :: rest) = true := by
      simpa using chPre_self_append (c :: rest) []
    simp [subSeg, this]

theorem subSeg_append_left {n b : List Char} (a : List Char)
    (hb : subSeg n b = true) : subSeg n (a ++ b) = true := by
  induction a with
  | nil => simpa using hb
  | cons c rest ih => simp [subSeg, ih]

theorem subSeg_mono_append {n a : List Char} (b : List Char)
    (ha : subSeg n a = true) : subSeg n (a ++ b) = true := by
  induction a with
  | nil =>
    simp only [subSeg, List.isEmpty_iff] at ha
    subst ha
    cases b with
    | nil => rfl
    | cons c rest => simp [subSeg, chPre]
  | cons c rest ih =>
    simp only [subSeg, Bool.or_eq_true] at ha ⊢
    rcases ha with h | h
    · exact Or.inl (by simpa using chPre_mono_append b h)
    · exact Or.inr (ih h)

theorem string_data_append (a b : String) : (a ++ b).data = a.data ++ b.data := rfl

theorem strIn_concat_right (n a b : String) (h : strIn n b = true) :
    strIn n (a ++ b) = true := by
  unfold strIn at h ⊢
  rw [string_data_append]
  exact subSeg_append_left a.data h

theorem strIn_concat_left (n a b : String) (h : strIn n a = true) :
    strIn n (a ++ b) = true := by
  unfold strIn at h ⊢
  rw [string_data_append]
  exact subSeg_mono_append b.data h

theorem strIn_self (s : String) : strIn s s = true := subSeg_self s.data

theorem startsWith_session_append (s : String) :
    pyStartsWith ("session_" ++ s) "session_" = true := by
  unfold pyStartsWith
  rw [string_data_append]
  exact chPre_self_append _ _

theorem ne_empty_of_startsWith_session {f : String}
    (h : pyStartsWith f "session_" = true) : f ≠ "" := by
  intro hf
  subst hf
  exact absurd h (by decide)

theorem dropWhile_idem (p : α → Bool) (l : List α) :
    List.dropWhile p (List.dropWhile p l) = List.dropWhile p l := by
  induction l with
  | nil => rfl
  | cons x t ih =>
    by_cases hx : p x = true
    · simp [List.dropWhile_cons, hx, ih]
    · simp [List.dropWhile_cons, hx]

theorem rstripL_idem (l : List Char) : rstripL (rstripL l) = rstripL l := by
  unfold rstripL
  rw [List.reverse_reverse, dropWhile_idem]

theorem mem_of_mem_rstripL {a : Char} {l : List Char} (h : a ∈ rstripL l) : a ∈ l := by
  unfold rstripL at h
  rw [List.mem_reverse] at h
  exact List.mem_reverse.mp ((List.dropWhile_sublist _).mem h)

theorem splitOnNl_cons_nl (t : List Char) :
    splitOnNl (nlChar :: t) = [] :: splitOnNl t := by
  simp [splitOnNl]

theorem splitOnNl_append_cons {c : List Char} (t : List Char) (hc : nlChar ∉ c) :
    splitOnNl (c ++ nlChar :: t) = c :: splitOnNl t := by
  induction c with
  | nil => simpa using splitOnNl_cons_nl t
  | cons x xs ih =>
    have hx : x ≠ nlChar := fun h => hc (h ▸ List.mem_cons_self x xs)
    have ihx := ih (fun h => hc (List.mem_cons_of_mem x h))
    simp only [List.cons_append, splitOnNl, if_neg hx, List.append_eq, ihx]

theorem splitOnNl_no_nl {c : List Char} (hc : nlChar ∉ c) : splitOnNl c = [c] := by
  induction c with
  | nil => rfl
  | cons x xs ih =>
    have hx : x ≠ nlChar := fun h => hc (h ▸ List.mem_cons_self x xs)
    have ihx := ih (fun h => hc (List.mem_cons_of_mem x h))
    simp only [splitOnNl, if_neg hx, ihx]

theorem splitOnNl_joinNlL {ls : List (List Char)} (hne : ls ≠ [])
    (hnl : ∀ c ∈ ls, nlChar ∉ c) : splitOnNl (joinNlL ls) = ls := by
  induction ls with
  | nil => exact absurd rfl hne
  | cons c cs ih =>
    cases cs with
    | nil =>
      simpa [joinNlL] using splitOnNl_no_nl (hnl c (List.mem_cons_self c []))
    | cons c' cs' =>
      have hjoin : joinNlL (c :: c' :: cs') = c ++ nlChar :: joinNlL (c' :: cs') := rfl
      rw [hjoin, splitOnNl_append_cons _ (hnl c (List.mem_cons_self c _)),
        ih (by simp) (fun d hd => hnl d (List.mem_cons_of_mem c hd))]

/-- Every accumulated streaming line is some source line right-stripped,
and is nonempty. -/
theorem processedLines_spec {lines : List String} {l : String}
    (h : l ∈ processedLines lines) :
    (∃ orig ∈ lines, l = pyRstrip orig) ∧ l ≠ "" := by
  unfold processedLines at h
  have h' := List.mem_filter.mp h
  obtain ⟨orig, ho, rfl⟩ := List.mem_map.mp h'.1
  refine ⟨⟨orig, ho, rfl⟩, ?_⟩
  have := h'.2
  simpa [bne_iff_ne] using this

theorem pyRstrip_idem (s : String) : pyRstrip (pyRstrip s) = pyRstrip s := by
  unfold pyRstrip
  rw [show (String.mk (rstripL s.data)).data = rstripL s.data from rfl, rstripL_idem]

/-- A conforming `session_<id>.jsonl` name is itself a `session_*` match, so
it can never survive into the `.jsonl` branch (that branch only runs when
the `session_*` glob was empty). -/
theorem conforming_is_session_match {j : String}
    (h : conformingJsonl j = true) : sessionEntryMatch j = true := by
  unfold conformingJsonl at h
  unfold sessionEntryMatch
  exact ((Bool.and_eq_true _ _).mp h).1

theorem no_session_match_of_glob_nil {entries : List String}
    (h : sessionGlob entries = []) {e : String} (he : e ∈ entries) :
    sessionEntryMatch e = false := by
  unfold sessionGlob at h
  rw [List.filter_eq_nil_iff] at h
  simpa using h e he

theorem mem_jsonlGlob_mem {entries : List String} {j : String}
    (h : j ∈ jsonlGlob entries) : j ∈ entries :=
  (List.mem_filter.mp h).1

/-- Every name the locator produces starts with `session_`. -/
theorem locate_startsWith (entries : List String) (nowMs : Nat) :
    pyStartsWith (locate_session_name entries nowMs) "session_" = true := by
  unfold locate_session_name
  cases hs : sessionGlob entries with
  | cons f rest =>
    have hf : f ∈ sessionGlob entries := by
      rw [hs]; exact List.mem_cons_self f rest
    exact (List.mem_filter.mp hf).2
  | nil =>
    cases hj : jsonlGlob entries with
    | nil => exact startsWith_session_append _
    | cons j js =>
      by_cases hcj : conformingJsonl j = true
      · have : sessionEntryMatch j = false :=
          no_session_match_of_glob_nil hs
            (mem_jsonlGlob_mem (by rw [hj]; exact List.mem_cons_self j js))
        rw [conforming_is_session_match hcj] at this
        exact absurd this (by decide)
      · simp only [if_neg hcj]
        exact startsWith_session_append _

theorem locate_ne_empty (entries : List String) (nowMs : Nat) :
    locate_session_name entries nowMs ≠ "" :=
  ne_empty_of_startsWith_session (locate_startsWith entries nowMs)

/-- The final `if not session_folder_name` fallback never fires. -/
theorem resolve_eq_locate (entries : List String) (nowMs : Nat) (rootBase : String) :
    resolve_session_name entries nowMs rootBase = locate_session_name entries nowMs := by
  unfold resolve_session_name
  exact if_neg (locate_ne_empty entries nowMs)

/-- C2: session resolution follows the stated order and always yields a
non-empty name: a `session_*` entry's basename wins; failing that, a
conforming `session_<id>.jsonl` basename would be stripped (a condition
that is vacuous in the "otherwise" region, since a conforming name is
itself a `session_*` match); otherwise the name `session_<nowMs>` is
synthesized.  The function is total, so resolution never raises. -/
theorem c2_session_resolution (entries : List String) (nowMs : Nat) (rootBase : String) :
    (∀ f rest, sessionGlob entries = f :: rest →
      resolve_session_name entries nowMs rootBase = f)
    ∧ (sessionGlob entries = [] → ∀ j ∈ jsonlGlob entries, conformingJsonl j = true →
      resolve_session_name entries nowMs rootBase = stripLast6 j)
    ∧ (sessionGlob entries = [] → (∀ j ∈ jsonlGlob entries, conformingJsonl j = false) →
      resolve_session_name entries nowMs rootBase = "session_" ++ Nat.repr nowMs)
    ∧ resolve_session_name entries nowMs rootBase ≠ "" := by
  rw [resolve_eq_locate]
  refine ⟨?_, ?_, ?_, locate_ne_empty entries nowMs⟩
  · intro f rest hs
    unfold locate_session_name
    rw [hs]
  · intro hs j hj hcj
    have : sessionEntryMatch j = false :=
      no_session_match_of_glob_nil hs (mem_jsonlGlob_mem hj)
    rw [conforming_is_session_match hcj] at this
    exact absurd this (by decide)
  · intro hs hall
    unfold locate_session_name
    rw [hs]
    cases hj : jsonlGlob entries with
    | nil => rfl
    | cons j js =>
      have := hall j (by rw [hj]; exact List.mem_cons_self j js)
      simp [this]

/-- C2 witness: an archive whose root holds a `session_1000` entry resolves
to exactly `session_1000`. -/
theorem c2_session_resolution_witness :
    resolve_session_name ["session_1000", "a.jsonl"] 7 "rootx" = "session_1000" :=
  (c2_session_resolution ["session_1000", "a.jsonl"] 7 "rootx").1
    "session_1000" [] (by decide)

/-- C9: every resolved name starts with `session_` and equals the
pre-fallback computation, i.e. the branch falling back to the extracted
root's basename is unreachable. -/
theorem c9_session_name_shape (entries : List String) (nowMs : Nat) (rootBase : String) :
    pyStartsWith (resolve_session_name entries nowMs rootBase) "session_" = true
    ∧ resolve_session_name entries nowMs rootBase = locate_session_name entries nowMs := by
  rw [resolve_eq_locate]
  exact ⟨locate_startsWith entries nowMs, rfl⟩

/-! ## C6 -/

/-- C6 counterexample: with the remote user unconfigured (and host, key
present, key file on disk), no ConfigError is raised — the upload runs its
transfer attempt and succeeds.  The claim's "remote user ... not
configured" case is not checked by the code. -/
theorem c6_user_unchecked_cex :
    upload_to_gpu_server cfgNoUser true scpOk = .ok () := rfl

/-- C6 (amended): a missing remote host or missing private-key setting, or
a key file absent from disk, yields a ConfigError-class error before and
independent of any transfer or shell attempt (the result is the same for
every attempt outcome); the remote user is not validated. -/
theorem c6_config_errors (cfg : Config) (ke : Bool) :
    ((cfg.gpuServerHost = "" ∨ cfg.gpuServerSshKey = "") →
      (∀ a, upload_to_gpu_server cfg ke a = .error .configMissing)
      ∧ (∀ a, download_from_gpu_server cfg ke a = .error .configMissing)
      ∧ (∀ cmd att, run_on_gpu_server cfg ke cmd att = .error .configMissing))
    ∧ (cfg.gpuServerHost ≠ "" → cfg.gpuServerSshKey ≠ "" → ke = false →
      (∀ a, upload_to_gpu_server cfg ke a
          = .error (.keyNotFound cfg.gpuServerSshKey))
      ∧ (∀ a, download_from_gpu_server cfg ke a
          = .error (.keyNotFound cfg.gpuServerSshKey))
      ∧ (∀ cmd att, run_on_gpu_server cfg ke cmd att
          = .error (.keyNotFound cfg.gpuServerSshKey))) := by
  constructor
  · intro h
    refine ⟨fun a => ?_, fun a => ?_, fun cmd att => ?_⟩
    · unfold upload_to_gpu_server; rw [if_pos h]
    · unfold download_from_gpu_server; rw [if_pos h]
    · unfold run_on_gpu_server; rw [if_pos h]
  · intro hh hk hke
    subst hke
    have hcond : ¬ (cfg.gpuServerHost = "" ∨ cfg.gpuServerSshKey = "") :=
      not_or.mpr ⟨hh, hk⟩
    refine ⟨fun a => ?_, fun a => ?_, fun cmd att => ?_⟩
    · unfold upload_to_gpu_server
      rw [if_neg hcond, if_pos (by decide : ¬ (false = true))]
    · unfold download_from_gpu_server
      rw [if_neg hcond, if_pos (by decide : ¬ (false = true))]
    · unfold run_on_gpu_server
      rw [if_neg hcond, if_pos (by decide : ¬ (false = true))]

/-- C6 witness: with no host configured, the upload reports the missing
configuration without consuming its attempt. -/
theorem c6_config_errors_witness :
    upload_to_gpu_server cfgNoHost true scpOk = .error .configMissing :=
  ((c6_config_errors cfgNoHost true).1 (Or.inl rfl)).1 scpOk

/-! ## C5 -/

/-- C5 counterexample: a download timeout is reported as a
connectivity-class failure, but its message carries none of the claimed
remediation guidance (no VPN, remote-host or network item). -/
theorem c5_download_timeout_no_guidance_cex :
    download_from_gpu_server cfgA true .timedOut
      = .error (.scpDownloadTimeout "10.28.228.101" 31788)
    ∧ isConnectivityErr (.scpDownloadTimeout "10.28.228.101" 31788) = true
    ∧ strIn gVpn (errStr (.scpDownloadTimeout "10.28.228.101" 31788)) = false
    ∧ strIn gHost (errStr (.scpDownloadTimeout "10.28.228.101" 31788)) = false
    ∧ strIn gNet (errStr (.scpDownloadTimeout "10.28.228.101" 31788)) = false :=
  ⟨rfl, rfl, by decide, by decide, by decide⟩

/-- C5 (amended): each upload/download call consumes exactly one transfer
attempt; a timeout or a connection-timed-out/connection-refused diagnostic
is reported as a connectivity-class error naming the unreachable
host:port, and any other non-zero exit as a transfer-class error carrying
the raw diagnostic.  The remediation guidance, however, varies by site:
the upload connection-failure message carries the VPN, remote-host and
network items; the download connection-failure message carries only the
VPN and remote-host items; the upload timeout carries only the VPN item;
the download timeout carries none. -/
theorem c5_transfer_failure_mapping (cfg : Config)
    (hh : cfg.gpuServerHost ≠ "") (hk : cfg.gpuServerSshKey ≠ "") :
    (upload_to_gpu_server cfg true .timedOut
        = .error (.scpUploadTimeout cfg.gpuServerHost cfg.gpuServerPort)
      ∧ isConnectivityErr (.scpUploadTimeout cfg.gpuServerHost cfg.gpuServerPort) = true
      ∧ strIn gVpn (errStr (.scpUploadTimeout cfg.gpuServerHost cfg.gpuServerPort)) = true)
    ∧ (download_from_gpu_server cfg true .timedOut
        = .error (.scpDownloadTimeout cfg.gpuServerHost cfg.gpuServerPort)
      ∧ isConnectivityErr (.scpDownloadTimeout cfg.gpuServerHost cfg.gpuServerPort) = true)
    ∧ (∀ rc out err, rc ≠ 0 → connRefusedOrTimedOut (scpErrMsg out err) = true →
      upload_to_gpu_server cfg true (.completed rc out err)
          = .error (.scpConnFailUpload cfg.gpuServerHost cfg.gpuServerPort
              (scpErrMsg out err))
        ∧ isConnectivityErr (.scpConnFailUpload cfg.gpuServerHost cfg.gpuServerPort
            (scpErrMsg out err)) = true
        ∧ strIn gVpn (errStr (.scpConnFailUpload cfg.gpuServerHost cfg.gpuServerPort
            (scpErrMsg out err))) = true
        ∧ strIn gHost (errStr (.scpConnFailUpload cfg.gpuServerHost cfg.gpuServerPort
            (scpErrMsg out err))) = true
        ∧ strIn gNet (errStr (.scpConnFailUpload cfg.gpuServerHost cfg.gpuServerPort
            (scpErrMsg out err))) = true)
    ∧ (∀ rc out err, rc ≠ 0 → connRefusedOrTimedOut (scpErrMsg out err) = true →
      download_from_gpu_server cfg true (.completed rc out err)
          = .error (.scpConnFailDownload cfg.gpuServerHost cfg.gpuServerPort
              (scpErrMsg out err))
        ∧ isConnectivityErr (.scpConnFailDownload cfg.gpuServerHost cfg.gpuServerPort
            (scpErrMsg out err)) = true
        ∧ strIn gVpn (errStr (.scpConnFailDownload cfg.gpuServerHost cfg.gpuServerPort
            (scpErrMsg out err))) = true
        ∧ strIn gHost (errStr (.scpConnFailDownload cfg.gpuServerHost cfg.gpuServerPort
            (scpErrMsg out err))) = true)
    ∧ (∀ rc out err, rc ≠ 0 → connRefusedOrTimedOut (scpErrMsg out err) = false →
      upload_to_gpu_server cfg true (.completed rc out err)
          = .error (.scpUploadFail (scpErrMsg out err))
        ∧ download_from_gpu_server cfg true (.completed rc out err)
          = .error (.scpDownloadFail (scpErrMsg out err))
        ∧ isTransferErr (.scpUploadFail (scpErrMsg out err)) = true
        ∧ isTransferErr (.scpDownloadFail (scpErrMsg out err)) = true
        ∧ strIn (scpErrMsg out err) (errStr (.scpUploadFail (scpErrMsg out err))) = true
        ∧ strIn (scpErrMsg out err)
            (errStr (.scpDownloadFail (scpErrMsg out err))) = true)
    ∧ (∀ out err, upload_to_gpu_server cfg true (.completed 0 out err) = .ok ()
        ∧ download_from_gpu_server cfg true (.completed 0 out err) = .ok ()) := by
  have hcond : ¬ (cfg.gpuServerHost = "" ∨ cfg.gpuServerSshKey = "") :=
    not_or.mpr ⟨hh, hk⟩
  refine ⟨⟨?_, rfl, ?_⟩, ⟨?_, rfl⟩, ?_, ?_, ?_, ?_⟩
  · unfold upload_to_gpu_server
    rw [if_neg hcond, if_neg (by decide : ¬ ¬ (true = true))]
  · simp only [errStr]
    exact strIn_concat_right _ _ _ (by decide)
  · unfold download_from_gpu_server
    rw [if_neg hcond, if_neg (by decide : ¬ ¬ (true = true))]
  · intro rc out err hrc hconn
    refine ⟨?_, rfl, ?_, ?_, ?_⟩
    · unfold upload_to_gpu_server
      rw [if_neg hcond, if_neg (by decide : ¬ ¬ (true = true))]
      simp only [if_pos hrc, hconn, if_true]
    · simp only [errStr]
      exact strIn_concat_left _ _ _ (strIn_concat_right _ _ _ (by decide))
    · simp only [errStr]
      exact strIn_concat_left _ _ _ (strIn_concat_right _ _ _ (by decide))
    · simp only [errStr]
      exact strIn_concat_left _ _ _ (strIn_concat_right _ _ _ (by decide))
  · intro rc out err hrc hconn
    refine ⟨?_, rfl, ?_, ?_⟩
    · unfold download_from_gpu_server
      rw [if_neg hcond, if_neg (by decide : ¬ ¬ (true = true))]
      simp only [if_pos hrc, hconn, if_true]
    · simp only [errStr]
      exact strIn_concat_left _ _ _ (strIn_concat_right _ _ _ (by decide))
    · simp only [errStr]
      exact strIn_concat_left _ _ _ (strIn_concat_right _ _ _ (by decide))
  · intro rc out err hrc hconn
    refine ⟨?_, ?_, rfl, rfl, ?_, ?_⟩
    · unfold upload_to_gpu_server
      rw [if_neg hcond, if_neg (by decide : ¬ ¬ (true = true))]
      simp only [if_pos hrc, hconn, if_neg (by simp : ¬ (false = true))]
    · unfold download_from_gpu_server
      rw [if_neg hcond, if_neg (by decide : ¬ ¬ (true = true))]
      simp only [if_pos hrc, hconn, if_neg (by simp : ¬ (false = true))]
    · simp only [errStr]
      exact strIn_concat_right _ _ _ (strIn_self _)
    · simp only [errStr]
      exact strIn_concat_right _ _ _ (strIn_self _)
  · intro out err
    constructor
    · unfold upload_to_gpu_server
      rw [if_neg hcond, if_neg (by decide : ¬ ¬ (true = true))]
      simp
    · unfold download_from_gpu_server
      rw [if_neg hcond, if_neg (by decide : ¬ ¬ (true = true))]
      simp

/-- C5 witness: with the default configuration, an upload timeout maps to
the connectivity-class timeout error. -/
theorem c5_transfer_failure_mapping_witness :
    upload_to_gpu_server cfgA true .timedOut
      = .error (.scpUploadTimeout "10.28.228.101" 31788) :=
  (c5_transfer_failure_mapping cfgA (by decide) (by decide)).1.1

/-! ## C4 -/

/-- C4: when the streaming execution of the inference step exits non-zero,
the executor raises an error carrying the exit code and the newline-join
of the last 20 captured lines (or the no-output marker), and the pipeline
converts it into the failure envelope built from exactly that error. -/
theorem c4_exec_failure (cfg : Config) (w : PipelineWorld)
    (lines : List String) (rc : Int)
    (hh : cfg.gpuServerHost ≠ "") (hk : cfg.gpuServerSshKey ≠ "") (hrc : rc ≠ 0)
    (h1 : stage1_result cfg true w = .ok ())
    (h2 : stage2_result cfg true w = .ok ())
    (hm : w.modelRunAttempt = .finished lines rc) :
    stage3_result cfg true w
      = .error (.sshExecFail rc
          (if (processedLines lines).isEmpty then "출력 없음"
           else joinNl (lastN 20 (processedLines lines))))
    ∧ (process_session_on_gpu_server cfg true w).1
      = mkFailure (.sshExecFail rc
          (if (processedLines lines).isEmpty then "출력 없음"
           else joinNl (lastN 20 (processedLines lines))))
    ∧ (process_session_on_gpu_server cfg true w).1.success = false := by
  have hcond : ¬ (cfg.gpuServerHost = "" ∨ cfg.gpuServerSshKey = "") :=
    not_or.mpr ⟨hh, hk⟩
  have h3 : stage3_result cfg true w
      = .error (.sshExecFail rc (execTailMsg (processedLines lines))) := by
    unfold stage3_result run_on_gpu_server
    rw [hm, if_neg hcond, if_neg (by decide : ¬ ¬ (true = true))]
    simp [hrc]
  have htail : execTailMsg (processedLines lines)
      = (if (processedLines lines).isEmpty then "출력 없음"
         else joinNl (lastN 20 (processedLines lines))) := rfl
  rw [htail] at h3
  have hmain : (process_session_on_gpu_server cfg true w).1
      = mkFailure (.sshExecFail rc
          (if (processedLines lines).isEmpty then "출력 없음"
           else joinNl (lastN 20 (processedLines lines)))) := by
    simp [process_session_on_gpu_server, h1, h2, h3]
  exact ⟨h3, hmain, by rw [hmain]; rfl⟩

/-- C4 witness: exit status 3 after the lines `step 1`, `boom␣␣` yields the
failure envelope carrying code 3 and the two right-stripped lines. -/
theorem c4_exec_failure_witness :
    (process_session_on_gpu_server cfgA true wExecFail).1
      = mkFailure (.sshExecFail 3 "step 1\nboom")
    ∧ (process_session_on_gpu_server cfgA true wExecFail).1.success = false := by
  have h := c4_exec_failure cfgA wExecFail ["step 1", "boom  "] 3
    (by decide) (by decide) (by decide) rfl rfl rfl
  exact ⟨by rw [h.2.1]; rfl, h.2.2⟩

/-! ## C10 -/

/-- C10: in streaming mode the returned text is the newline-join of the
right-stripped, nonempty lines, and (when any line survived) splitting the
transcript at newlines recovers exactly those lines — each nonempty and
fixed under right-stripping, so the fallback parser never sees a blank
line or trailing per-line whitespace.  The hypothesis says only that
`readline` yields lines without interior newlines. -/
theorem c10_streaming_output (cfg : Config) (cmd : String) (lines : List String)
    (hh : cfg.gpuServerHost ≠ "") (hk : cfg.gpuServerSshKey ≠ "")
    (hnl : ∀ l ∈ lines, nlChar ∉ l.data) :
    run_on_gpu_server cfg true cmd (.finished lines 0)
      = .ok (joinNl (processedLines lines))
    ∧ (processedLines lines ≠ [] →
        splitOnNl (joinNl (processedLines lines)).data
          = (processedLines lines).map String.data)
    ∧ (∀ chunk ∈ splitOnNl (joinNl (processedLines lines)).data,
        processedLines lines ≠ [] → chunk ≠ [] ∧ rstripL chunk = chunk) := by
  have hcond : ¬ (cfg.gpuServerHost = "" ∨ cfg.gpuServerSshKey = "") :=
    not_or.mpr ⟨hh, hk⟩
  have hchunks : ∀ c ∈ (processedLines lines).map String.data, nlChar ∉ c := by
    intro c hc
    obtain ⟨l, hl, rfl⟩ := List.mem_map.mp hc
    obtain ⟨⟨orig, ho, rfl⟩, _⟩ := processedLines_spec hl
    intro hmem
    exact hnl orig ho (mem_of_mem_rstripL hmem)
  have hsplit : processedLines lines ≠ [] →
      splitOnNl (joinNl (processedLines lines)).data
        = (processedLines lines).map String.data := by
    intro hne
    have hd : (joinNl (processedLines lines)).data
        = joinNlL ((processedLines lines).map String.data) := rfl
    rw [hd]
    exact splitOnNl_joinNlL (fun h => hne (List.map_eq_nil_iff.mp h)) hchunks
  refine ⟨?_, hsplit, ?_⟩
  · unfold run_on_gpu_server
    rw [if_neg hcond, if_neg (by decide : ¬ ¬ (true = true))]
    simp
  · intro chunk hchunk hne
    rw [hsplit hne] at hchunk
    obtain ⟨l, hl, rfl⟩ := List.mem_map.mp hchunk
    obtain ⟨⟨orig, ho, rfl⟩, hne'⟩ := processedLines_spec hl
    constructor
    · intro h0
      apply hne'
      cases horig : pyRstrip orig with
      | mk d =>
        rw [horig] at h0
        simp only at h0
        subst h0
        rfl
    · exact congrArg String.data (pyRstrip_idem orig)

/-- C10 witness: the lines `a␣␣`, ``, `␣`, `b` stream as the transcript
`a\nb`. -/
theorem c10_streaming_output_witness :
    run_on_gpu_server cfgA true "cmd" (.finished ["a  ", "", " ", "b"] 0)
      = .ok "a\nb" :=
  (c10_streaming_output cfgA "cmd" ["a  ", "", " ", "b"]
    (by decide) (by decide) (by decide)).1

/-! ## C1 -/

/-- When `downloaded_content` reports a file, its content is the bytes the
download produced. -/
theorem downloaded_content_some {cfg : Config} {ke : Bool} {w : PipelineWorld}
    {c : String} (h : downloaded_content cfg ke w = some c) :
    c = w.resultFileContent := by
  unfold downloaded_content at h
  cases hd : download_from_gpu_server cfg ke w.downloadAttempt with
  | ok u => rw [hd] at h; exact (Option.some.inj h).symm
  | error e => rw [hd] at h; exact Option.noConfusion h

/-- When the fallback cannot decode an object, it yields the defaults. -/
theorem fallback_defaults_of {output : String}
    (h : fallbackDefaults output = true) :
    fallback_extract output = (zero3, none) := by
  unfold fallbackDefaults at h
  unfold fallback_extract
  cases hs : extractBraceSpan output with
  | none => rfl
  | some span =>
    rw [hs] at h
    dsimp only at h ⊢
    cases hj : jsonLoads span with
    | none => simp only [hj]
    | some v =>
      rw [hj] at h
      cases v with
      | null => simp only [hj]
      | bool b => simp only [hj]
      | num n => simp only [hj]
      | str s => simp only [hj]
      | arr xs => simp only [hj]
      | obj fs => simp at h

/-- C1: whenever the result-file download fails or the downloaded document
does not decode to a JSON object, the pipeline's answer is the
success-shaped envelope built from the fallback extraction over the
captured execution output; and when that fallback has no brace span or an
undecodable one, the envelope carries the zero coordinates with no
rotation axis — in every such case `success = true`. -/
theorem c1_parse_fallback (cfg : Config) (w : PipelineWorld) (output : String)
    (h1 : stage1_result cfg true w = .ok ())
    (h2 : stage2_result cfg true w = .ok ())
    (h3 : stage3_result cfg true w = .ok output)
    (hfail : downloaded_content cfg true w = none
      ∨ read_result_file w.resultFileContent = none) :
    (process_session_on_gpu_server cfg true w).1
      = mkSuccess (fallback_extract output).1 (fallback_extract output).2
    ∧ (process_session_on_gpu_server cfg true w).1.success = true
    ∧ (fallbackDefaults output = true →
        (process_session_on_gpu_server cfg true w).1 = mkSuccess zero3 none) := by
  have hparse : parse_result (downloaded_content cfg true w) output
      = fallback_extract output := by
    cases hd : downloaded_content cfg true w with
    | none => rfl
    | some c =>
      rcases hfail with hf | hf
      · rw [hd] at hf; exact Option.noConfusion hf
      · have hc : c = w.resultFileContent := downloaded_content_some hd
        subst hc
        simp [parse_result, hf]
  have hmain : (process_session_on_gpu_server cfg true w).1
      = mkSuccess (fallback_extract output).1 (fallback_extract output).2 := by
    simp [process_session_on_gpu_server, h1, h2, h3, hparse]
  refine ⟨hmain, by rw [hmain]; rfl, fun hdef => ?_⟩
  rw [hmain, fallback_defaults_of hdef]

/-- C1 witness: execution output with no JSON and a timed-out download
still produce a `success = true` envelope with `[0,0,0]` and no axis. -/
theorem c1_parse_fallback_witness :
    (process_session_on_gpu_server cfgA true wFallback).1 = mkSuccess zero3 none
    ∧ (process_session_on_gpu_server cfgA true wFallback).1.success = true := by
  have h := c1_parse_fallback cfgA wFallback "no json here" rfl rfl rfl (Or.inl rfl)
  exact ⟨h.2.2 (by decide), h.2.1⟩

/-! ## C3 -/

theorem cupGet_shape {fs : List (String × Json)} (h : shapeOkB fs = true) :
    isArr3 (cupGet fs) = true := by
  unfold shapeOkB at h
  obtain ⟨h1, h2⟩ := (Bool.and_eq_true _ _).mp h
  unfold cupGet
  cases hc : lookupLast fs "cup_coordinates" with
  | some v => rw [hc] at h1; exact h1
  | none => rfl

theorem rotGet_shape {fs : List (String × Json)} {v : Json}
    (h : shapeOkB fs = true) (hv : rotGet fs = some v) : isArr3 v = true := by
  unfold shapeOkB at h
  obtain ⟨h1, h2⟩ := (Bool.and_eq_true _ _).mp h
  unfold rotGet at hv
  cases hr : lookupLast fs "rotation_axis" with
  | none => rw [hr] at hv; exact Option.noConfusion hv
  | some u =>
    rw [hr] at hv h2
    cases u <;> simp_all

/-- The fallback's output obeys the shape whenever the span it decodes
does. -/
theorem fallback_shape {output : String}
    (h2 : shapeOkO (spanFields output) = true) :
    isArr3 (fallback_extract output).1 = true
    ∧ ∀ v, (fallback_extract output).2 = some v → isArr3 v = true := by
  unfold spanFields at h2
  unfold fallback_extract
  cases hs : extractBraceSpan output with
  | none => exact ⟨rfl, fun v hv => Option.noConfusion hv⟩
  | some span =>
    rw [hs] at h2
    dsimp only at h2 ⊢
    cases hj : jsonLoads span with
    | none => exact ⟨rfl, fun v hv => Option.noConfusion hv⟩
    | some u =>
      cases u with
      | null => exact ⟨rfl, fun v hv => Option.noConfusion hv⟩
      | bool b => exact ⟨rfl, fun v hv => Option.noConfusion hv⟩
      | num n => exact ⟨rfl, fun v hv => Option.noConfusion hv⟩
      | str s => exact ⟨rfl, fun v hv => Option.noConfusion hv⟩
      | arr xs => exact ⟨rfl, fun v hv => Option.noConfusion hv⟩
      | obj fs =>
        rw [hj] at h2
        exact ⟨cupGet_shape h2, fun v hv => rotGet_shape h2 hv⟩

/-- C3 counterexample: a downloaded result file whose `cup_coordinates`
has two components flows into the success envelope unchanged — the parsed
result does not have exactly three components. -/
theorem c3_arity_cex :
    (process_session_on_gpu_server cfgA true wBadArity).1
      = PipelineResult.ok (Json.arr [Json.num 1, Json.num 2]) none
          "처리 완료 (GPU 서버에서 실행됨)"
    ∧ isArr3 (Json.arr [Json.num 1, Json.num 2]) = false := ⟨rfl, rfl⟩

/-- C3 (amended): whenever every object a parse source decodes respects
the remote contract's field shapes (`cup_coordinates` absent or a
three-element array, `rotation_axis` absent, null, or a three-element
array), the parsed result's `cup_coordinates` has exactly three
components, and so does its `rotation_axis` when present.  The parser
itself does not enforce the arity. -/
theorem c3_parsed_shape (downloaded : Option String) (output : String)
    (h1 : shapeOkO (decodedObjFields downloaded) = true)
    (h2 : shapeOkO (spanFields output) = true) :
    isArr3 (parse_result downloaded output).1 = true
    ∧ ∀ v, (parse_result downloaded output).2 = some v → isArr3 v = true := by
  cases downloaded with
  | none => exact fallback_shape h2
  | some c =>
    unfold decodedObjFields at h1
    dsimp only at h1
    unfold parse_result read_result_file
    dsimp only
    cases hj : jsonLoads c with
    | none => exact fallback_shape h2
    | some u =>
      cases u with
      | null => exact fallback_shape h2
      | bool b => exact fallback_shape h2
      | num n => exact fallback_shape h2
      | str s => exact fallback_shape h2
      | arr xs => exact fallback_shape h2
      | obj fs =>
        rw [hj] at h1
        exact ⟨cupGet_shape h1, fun v hv => rotGet_shape h1 hv⟩

/-- C3 witness: a well-shaped downloaded document yields a three-component
result. -/
theorem c3_parsed_shape_witness :
    isArr3 (parse_result
      (some "\x7b\"cup_coordinates\": [4, 5, 6]\x7d") "").1 = true :=
  (c3_parsed_shape (some "\x7b\"cup_coordinates\": [4, 5, 6]\x7d") ""
    (by decide) (by decide)).1

/-! ## C7 -/

theorem truthy_field_iff (b : Option Json) :
    (if pyTruthyO b then b else none).isSome = true
      ↔ ∃ v, b = some v ∧ pyTruthy v = true := by
  cases b with
  | none => simp [pyTruthyO]
  | some v =>
    by_cases hv : pyTruthy v = true
    · simp [pyTruthyO, hv]
    · simp [pyTruthyO, hv]

/-- C7 counterexample: with a downloaded result whose `rotation_axis` is a
present (but empty) array, the parsed result holds `some []` yet the
success envelope carries no `rotation_axis` field: presence of the field
is not equivalent to presence of a parsed value. -/
theorem c7_rotation_truthiness_cex :
    (process_session_on_gpu_server cfgA true wEmptyRot).1.rotationField = none
    ∧ parse_result (some wEmptyRot.resultFileContent) "no json here"
        = (Json.arr [Json.num 1, Json.num 2, Json.num 3], some (Json.arr []))
    ∧ (process_session_on_gpu_server cfgA true wEmptyRot).1.success = true :=
  ⟨rfl, rfl, rfl⟩

/-- C7 (amended): every successful invocation returns an envelope with
`success = true`, the parsed `cup_coordinates` and the fixed message, and
it carries a `rotation_axis` field if and only if the parsed result's
`rotation_axis` is a present, truthy value (for the remote contract's
three-number arrays: present and nonempty). -/
theorem c7_envelope_shape (cfg : Config) (w : PipelineWorld) (output : String)
    (h1 : stage1_result cfg true w = .ok ())
    (h2 : stage2_result cfg true w = .ok ())
    (h3 : stage3_result cfg true w = .ok output) :
    (process_session_on_gpu_server cfg true w).1
      = mkSuccess (parse_result (downloaded_content cfg true w) output).1
          (parse_result (downloaded_content cfg true w) output).2
    ∧ (process_session_on_gpu_server cfg true w).1.success = true
    ∧ ((process_session_on_gpu_server cfg true w).1.rotationField.isSome = true
      ↔ ∃ v, (parse_result (downloaded_content cfg true w) output).2 = some v
          ∧ pyTruthy v = true) := by
  have hmain : (process_session_on_gpu_server cfg true w).1
      = mkSuccess (parse_result (downloaded_content cfg true w) output).1
          (parse_result (downloaded_content cfg true w) output).2 := by
    simp [process_session_on_gpu_server, h1, h2, h3]
  refine ⟨hmain, by rw [hmain]; rfl, ?_⟩
  rw [hmain]
  exact truthy_field_iff _

/-- C7 witness: a three-component, truthy rotation axis does appear in the
envelope. -/
theorem c7_envelope_shape_witness :
    (process_session_on_gpu_server cfgA true wRot3).1.rotationField
      = some (Json.arr [Json.num 7, Json.num 8, Json.num 9]) := by
  have h := c7_envelope_shape cfgA wRot3 "no json here" rfl rfl rfl
  rw [h.1]
  rfl

/-! ## C8 -/

/-- C8: on every exit path — failure envelope from any stage, or the
successful return — both local temporary files (the archive bundle and the
downloaded-result file) are gone when the invocation returns. -/
theorem c8_local_cleanup (cfg : Config) (ke : Bool) (w : PipelineWorld) :
    (process_session_on_gpu_server cfg ke w).2.tarFileExists = false
    ∧ (process_session_on_gpu_server cfg ke w).2.resultFileExists = false := by
  unfold process_session_on_gpu_server
  cases stage1_result cfg ke w with
  | error e => exact ⟨rfl, rfl⟩
  | ok u =>
    cases stage2_result cfg ke w with
    | error e => exact ⟨rfl, rfl⟩
    | ok u2 =>
      cases stage3_result cfg ke w with
      | error e => exact ⟨rfl, rfl⟩
      | ok output => exact ⟨rfl, rfl⟩
